import Mathlib

/-!
Verification of the query-safety gate and intent-routing pipeline of
`src/agent/core_agent.py` (class `CoreAgent`).

The Python functions are shallowly embedded as Lean functions on `String`
(a `String` here is its list of characters, matching Python's `str` as a
sequence of code points):

* `sanitizeSql`       embeds `CoreAgent._sanitize_sql` (lines 45-60);
* `route`             embeds the keyword routing of `handle_question`
                      (lines 106-113, the `if/elif/else` on the question);
* `generatePlot`      embeds `CoreAgent.generate_plot` (lines 66-87);
* `saveFile`          embeds `CoreAgent.save_file` (lines 89-93);
* `handleQuestion`    embeds `CoreAgent.handle_question` (lines 95-119).

External collaborators are passed in as functions: the LLM translation
(`self.chain.run`), the SQLite store (`execute_query`) are fallible and
modelled with `Except String` (a raised exception is `Except.error msg`);
the pandas table formatter `DataFrame.to_string` is an opaque function
parameter.  Filesystem effects (the chart HTML written by
`fig.write_html`, the CSV written by `df.to_csv`) and the queries sent to
the store are recorded in an explicit `Trace`.  Python's per-process
string hash (`hash`) is a function parameter `hashFn : String → Int`.
-/

set_option maxRecDepth 8192

/-- Python `str.strip()` whitespace test, restricted to the ASCII whitespace
characters (space, tab, newline, carriage return, vertical tab, form feed). -/
def pyIsSpace (c : Char) : Bool :=
  c.toNat = 32 || c.toNat = 9 || c.toNat = 10 || c.toNat = 13 ||
    c.toNat = 11 || c.toNat = 12

/-- Python `str.lower()` on one character, for the ASCII range and the
Latin-1 uppercase letters (`À`..`Þ`, excluding `×`) that occur in the
Spanish keyword lists of the source.  Other characters are unchanged. -/
def pyLowerChar (c : Char) : Char :=
  if 65 ≤ c.toNat ∧ c.toNat ≤ 90 then Char.ofNat (c.toNat + 32)
  else if 192 ≤ c.toNat ∧ c.toNat ≤ 222 ∧ c.toNat ≠ 215 then
    Char.ofNat (c.toNat + 32)
  else c

/-- Drop leading whitespace (the left half of Python `str.strip()`). -/
def lstripL (l : List Char) : List Char := l.dropWhile pyIsSpace

/-- Drop trailing whitespace (the right half of Python `str.strip()`). -/
def rstripL (l : List Char) : List Char := (l.reverse.dropWhile pyIsSpace).reverse

/-- Python `str.strip()` on a character list. -/
def stripL (l : List Char) : List Char := rstripL (lstripL l)

/-- Python `str.lower()` on a character list. -/
def lowerL (l : List Char) : List Char := l.map pyLowerChar

/-- Python `sql.strip()`. -/
def pyStrip (s : String) : String := ⟨stripL s.data⟩

/-- Python `sql.lower()`. -/
def pyLower (s : String) : String := ⟨lowerL s.data⟩

/-- Python `pat in s`: `pat` occurs as a contiguous substring of `s`. -/
def strContains (s pat : String) : Bool := decide (pat.data <:+: s.data)

/-- Python `s.startswith(pat)`. -/
def strStartsWith (s pat : String) : Bool := decide (pat.data <+: s.data)

/-- The two `ValueError`s `_sanitize_sql` can raise (lines 54 and 57):
the spec's `UnsafeQueryError` reasons `NotASelect` and `ForbiddenKeyword`. -/
inductive SanitizeError where
  | notASelect
  | forbiddenKeyword
deriving DecidableEq

instance {ε α : Type} [DecidableEq ε] [DecidableEq α] : DecidableEq (Except ε α) := fun
  | .error a, .error b =>
    if h : a = b then .isTrue (by rw [h]) else .isFalse (fun he => h (Except.error.inj he))
  | .error _, .ok _ => .isFalse (fun h => nomatch h)
  | .ok _, .error _ => .isFalse (fun h => nomatch h)
  | .ok a, .ok b =>
    if h : a = b then .isTrue (by rw [h]) else .isFalse (fun he => h (Except.ok.inj he))

/-- The message of the `ValueError` raised by `_sanitize_sql`. -/
def sanitizeMsg : SanitizeError → String
  | .notASelect => "Solo se permiten consultas SELECT."
  | .forbiddenKeyword => "Consulta SQL contiene comandos no permitidos."

/-- Line 55: `forbidden = ["drop", "delete", "update", "insert", "alter"]`. -/
def forbidden : List String := ["drop", "delete", "update", "insert", "alter"]

/-- `CoreAgent._sanitize_sql` (lines 45-60).  `sql_lower = sql.strip().lower()`;
reject unless it starts with `select`; reject if any forbidden word occurs in
it; append `" LIMIT 100"` to the original `sql` unless `limit` occurs. -/
def sanitizeSql (sql : String) : Except SanitizeError String :=
  let sqlLower := pyLower (pyStrip sql)
  if !strStartsWith sqlLower "select" then .error .notASelect
  else if forbidden.any (fun word => strContains sqlLower word) then
    .error .forbiddenKeyword
  else if strContains sqlLower "limit" then .ok sql
  else .ok (sql ++ " LIMIT 100")

/-- A pandas column as the core logic sees it: its name and whether
`select_dtypes(include='number')` keeps it. -/
structure Column where
  name : String
  numeric : Bool
deriving DecidableEq

/-- A pandas `DataFrame` as the core logic sees it: the ordered columns and
the number of rows.  The orchestrator never inspects cell values itself;
they only flow into the external renderer calls (`px.bar`, `to_csv`,
`to_string`). -/
structure DataFrame where
  columns : List Column
  rowCount : Nat
deriving DecidableEq

/-- pandas `df.empty`: true when either axis has length 0. -/
def DataFrame.empty (df : DataFrame) : Bool :=
  df.rowCount = 0 || df.columns.isEmpty

/-- pandas `df.select_dtypes(include='number').columns` (line 76). -/
def DataFrame.numericColumns (df : DataFrame) : List Column :=
  df.columns.filter (fun c => c.numeric)

/-- pandas `df.head(n)` (line 117): the first `n` rows, all columns. -/
def DataFrame.head (df : DataFrame) (n : Nat) : DataFrame :=
  ⟨df.columns, min df.rowCount n⟩

/-- Line 84: `f"output/graph_{abs(hash(question))}.html"`, with the
process's string hash passed in as `hashFn`. -/
def graphPath (hashFn : String → Int) (question : String) : String :=
  "output/graph_" ++ toString (hashFn question).natAbs ++ ".html"

/-- `CoreAgent.generate_plot` (lines 66-87): the returned message and the
list of files written (`fig.write_html` writes exactly `graph_path`; the
empty and no-numeric-column cases return without writing).  The bar chart
itself (`px.bar` on the first column versus the first numeric column) is
an external-library effect carried inside the written file. -/
def generatePlot (hashFn : String → Int) (df : DataFrame) (question : String) :
    String × List String :=
  if df.empty then ("No hay datos para graficar.", [])
  else if df.numericColumns.isEmpty then
    ("No hay columnas numéricas para graficar.", [])
  else
    let p := graphPath hashFn question
    ("Gráfico generado y guardado en " ++ p, [p])

/-- `CoreAgent.save_file` (lines 89-93): writes the CSV at `filename` and
returns the confirmation message. -/
def saveFile (filename : String) : String × List String :=
  ("Archivo guardado en " ++ filename, [filename])

/-- The route decision of `handle_question` (lines 106-113). -/
inductive RouteDecision where
  | table
  | chart
  | file
deriving DecidableEq

/-- Line 107 keyword list. -/
def chartKeywords : List String := ["gráfico", "grafico", "gráficos", "grafica"]

/-- Line 109 keyword list. -/
def fileKeywords : List String := ["archivo", "csv", "excel"]

/-- The `if/elif/else` of `handle_question` on `question.lower()`
(lines 106-113): chart keywords first, then file keywords, else table. -/
def route (question : String) : RouteDecision :=
  let questionLower := pyLower question
  if chartKeywords.any (fun k => strContains questionLower k) then .chart
  else if fileKeywords.any (fun k => strContains questionLower k) then .file
  else .table

/-- The observable effects of one `handle_question` call: the queries sent
to `SQLConnector.execute_query` and the files written. -/
structure Trace where
  executedQueries : List String
  writtenFiles : List String
deriving DecidableEq

/-- The body of `handle_question` inside the `try` (lines 102-117).
`translate` is `self.chain.run` (the LLM call), `executeQuery` is
`self.sql_connector.execute_query`, `toStr` is
`DataFrame.to_string(index=False)`; a raised exception is an
`Except.error` carrying its message and the effects so far. -/
def handleBody (translate : String → Except String String)
    (executeQuery : String → Except String DataFrame)
    (hashFn : String → Int) (toStr : DataFrame → String)
    (question : String) : Except (String × Trace) (String × Trace) :=
  match translate question with
  | .error m => .error (m, ⟨[], []⟩)
  | .ok candidate =>
    match sanitizeSql candidate with
    | .error err => .error (sanitizeMsg err, ⟨[], []⟩)
    | .ok sql =>
      match executeQuery sql with
      | .error m => .error (m, ⟨[sql], []⟩)
      | .ok df =>
        match route question with
        | .chart =>
          let r := generatePlot hashFn df question
          .ok (r.1, ⟨[sql], r.2⟩)
        | .file =>
          let r := saveFile "output/ventas.csv"
          .ok (r.1, ⟨[sql], r.2⟩)
        | .table =>
          if df.empty then .ok ("No se encontraron resultados.", ⟨[sql], []⟩)
          else .ok (toStr (df.head 10), ⟨[sql], []⟩)

/-- `CoreAgent.handle_question` (lines 95-119): the `try/except Exception`
around `handleBody`; a caught exception returns `f"Error: {e}"`. -/
def handleQuestion (translate : String → Except String String)
    (executeQuery : String → Except String DataFrame)
    (hashFn : String → Int) (toStr : DataFrame → String)
    (question : String) : String × Trace :=
  match handleBody translate executeQuery hashFn toStr question with
  | .ok r => r
  | .error (m, tr) => ("Error: " ++ m, tr)

/-- Concrete collaborator stubs used by the closed witness statements. -/
def stubStore : String → Except String DataFrame :=
  fun _ => .ok ⟨[⟨"mes", false⟩, ⟨"total", true⟩], 3⟩

/-- A store stub whose `execute_query` raises. -/
def stubStoreFail : String → Except String DataFrame := fun _ => .error "db down"

/-- A fixed per-process string hash (Python's `hash` is one such function). -/
def stubHash : String → Int := fun s => Int.ofNat s.data.length

/-- An opaque `DataFrame.to_string` stand-in. -/
def stubToStr : DataFrame → String := fun _ => "tabla"

/-- A `TranslationClient` stub returning `"DROP TABLE ventas"`. -/
def stubTranslateDrop : String → Except String String :=
  fun _ => .ok "DROP TABLE ventas"

/-- A `TranslationClient` stub that raises. -/
def stubTranslateFail : String → Except String String := fun _ => .error "timeout"

/-- A `TranslationClient` stub returning a clean `SELECT`. -/
def stubTranslateSelect : String → Except String String :=
  fun _ => .ok "select * from ventas"

/-- `sanitizeSql` unfolded into its three tests, for case analysis. -/
theorem sanitizeSql_eq (s : String) :
    sanitizeSql s =
      if strStartsWith (pyLower (pyStrip s)) "select" = false then
        .error .notASelect
      else if forbidden.any (fun word => strContains (pyLower (pyStrip s)) word) then
        .error .forbiddenKeyword
      else if strContains (pyLower (pyStrip s)) "limit" then .ok s
      else .ok (s ++ " LIMIT 100") := by
  unfold sanitizeSql
  cases h1 : strStartsWith (pyLower (pyStrip s)) "select" <;> simp [h1]

/-- The three tests a successful `sanitizeSql` run passed, and the shape
of its output. -/
theorem sanitizeSql_ok_cases {s r : String} (h : sanitizeSql s = .ok r) :
    strStartsWith (pyLower (pyStrip s)) "select" = true ∧
    forbidden.any (fun word => strContains (pyLower (pyStrip s)) word) = false ∧
    ((strContains (pyLower (pyStrip s)) "limit" = true ∧ r = s) ∨
      (strContains (pyLower (pyStrip s)) "limit" = false ∧ r = s ++ " LIMIT 100")) := by
  rw [sanitizeSql_eq] at h
  cases h1 : strStartsWith (pyLower (pyStrip s)) "select" <;>
    cases h2 : forbidden.any (fun word => strContains (pyLower (pyStrip s)) word) <;>
      cases h3 : strContains (pyLower (pyStrip s)) "limit" <;>
        simp [h1, h2, h3] at h <;> simp_all

/-- Decomposing a prefix of an append: it is a prefix of the left part, or
it is the whole left part followed by a prefix of the right part. -/
theorem prefix_append_split {α : Type} {w A B : List α} (h : w <+: A ++ B) :
    w <+: A ∨ ∃ r, w = A ++ r ∧ r <+: B := by
  induction A generalizing w with
  | nil => exact Or.inr ⟨w, rfl, by simpa using h⟩
  | cons a A ih =>
    cases w with
    | nil => exact Or.inl ⟨a :: A, rfl⟩
    | cons b w' =>
      rw [List.cons_append] at h
      obtain ⟨hb, h'⟩ := List.cons_prefix_cons.mp h
      subst hb
      rcases ih h' with h1 | ⟨r, rfl, hr⟩
      · exact Or.inl (List.cons_prefix_cons.mpr ⟨rfl, h1⟩)
      · exact Or.inr ⟨r, by simp, hr⟩

/-- Decomposing an infix of an append: the occurrence lies inside the left
part, inside the right part, or spans the boundary (a nonempty suffix of
the left part followed by a nonempty prefix of the right part). -/
theorem infix_append_split {α : Type} {w A B : List α} (h : w <:+: A ++ B) :
    w <:+: A ∨ w <:+: B ∨
      ∃ w₁ w₂, w = w₁ ++ w₂ ∧ w₁ ≠ [] ∧ w₂ ≠ [] ∧ w₁ <:+ A ∧ w₂ <+: B := by
  induction A generalizing w with
  | nil => exact Or.inr (Or.inl (by simpa using h))
  | cons a A ih =>
    rw [List.cons_append] at h
    rcases List.infix_cons_iff.mp h with hp | hi
    · cases w with
      | nil => exact Or.inl List.nil_infix
      | cons b w' =>
        obtain ⟨hb, h'⟩ := List.cons_prefix_cons.mp hp
        subst hb
        rcases prefix_append_split h' with h1 | ⟨r, rfl, hr⟩
        · exact Or.inl (List.IsPrefix.isInfix (List.cons_prefix_cons.mpr ⟨rfl, h1⟩))
        · cases r with
          | nil => exact Or.inl (by rw [List.append_nil])
          | cons c r' =>
            exact Or.inr (Or.inr ⟨b :: A, c :: r', by simp, by simp, by simp,
              List.suffix_refl _, hr⟩)
    · rcases ih hi with h1 | h2 | ⟨w₁, w₂, hw, hn1, hn2, hs, hp2⟩
      · exact Or.inl (List.infix_cons h1)
      · exact Or.inr (Or.inl h2)
      · exact Or.inr (Or.inr ⟨w₁, w₂, hw, hn1, hn2, hs.trans (List.suffix_cons a A), hp2⟩)

/-- An infix of the right part of an append is an infix of the whole. -/
theorem infix_append_of_right {α : Type} (A : List α) {w B : List α} (h : w <:+: B) :
    w <:+: A ++ B :=
  h.trans (List.IsSuffix.isInfix (List.suffix_append A B))

/-- A word occurring in neither part of an append, and avoiding the first
element of the right part, does not occur in the append. -/
theorem not_infix_append {α : Type} {w A B : List α}
    (hA : ¬ w <:+: A) (hB : ¬ w <:+: B)
    (hhead : ∀ c, B.head? = some c → c ∉ w) :
    ¬ w <:+: A ++ B := by
  intro h
  rcases infix_append_split h with h1 | h2 | ⟨w₁, w₂, hw, _, hn2, _, hp⟩
  · exact hA h1
  · exact hB h2
  · cases w₂ with
    | nil => exact hn2 rfl
    | cons c w₂' =>
      obtain ⟨t, ht⟩ := hp
      have hc : B.head? = some c := by rw [← ht]; rfl
      exact hhead c hc (by
        rw [hw]
        exact List.mem_append.mpr (Or.inr (List.mem_cons_self c w₂')))

/-- Whitespace characters are fixed points of `pyLowerChar`. -/
theorem pyLowerChar_space {c : Char} (h : pyIsSpace c = true) : pyLowerChar c = c := by
  have h' := h
  simp only [pyIsSpace, Bool.or_eq_true, decide_eq_true_eq] at h'
  have hn1 : ¬ (65 ≤ c.toNat ∧ c.toNat ≤ 90) := by omega
  have hn2 : ¬ (192 ≤ c.toNat ∧ c.toNat ≤ 222 ∧ c.toNat ≠ 215) := by omega
  unfold pyLowerChar
  rw [if_neg hn1, if_neg hn2]

/-- Lower-casing a run of whitespace leaves it unchanged. -/
theorem lowerL_spaces : ∀ (w : List Char), (∀ c ∈ w, pyIsSpace c = true) → lowerL w = w
  | [], _ => rfl
  | c :: w, h => by
    show pyLowerChar c :: lowerL w = c :: w
    rw [pyLowerChar_space (h c (List.mem_cons_self c w)),
      lowerL_spaces w (fun x hx => h x (List.mem_cons_of_mem c hx))]

/-- Lower-casing distributes over append. -/
theorem lowerL_append (a b : List Char) : lowerL (a ++ b) = lowerL a ++ lowerL b :=
  List.map_append pyLowerChar a b

/-- Every list is its right-strip followed by trailing whitespace. -/
theorem rstripL_decomp (l : List Char) :
    ∃ w, l = rstripL l ++ w ∧ ∀ c ∈ w, pyIsSpace c = true := by
  refine ⟨(l.reverse.takeWhile pyIsSpace).reverse, ?_, ?_⟩
  · have h1 : l.reverse.takeWhile pyIsSpace ++ l.reverse.dropWhile pyIsSpace =
        l.reverse := by simp
    have h2 := congrArg List.reverse h1
    rw [List.reverse_append, List.reverse_reverse] at h2
    exact h2.symm
  · intro c hc
    rw [List.mem_reverse] at hc
    exact List.mem_takeWhile_imp hc

/-- Right-stripping a list that ends in a non-whitespace character does
nothing. -/
theorem rstripL_concat {m : List Char} {c : Char} (h : pyIsSpace c = false) :
    rstripL (m ++ [c]) = m ++ [c] := by
  unfold rstripL
  simp [List.dropWhile_cons, h]

/-- Left-stripping stops inside the left part of an append when that part
does not strip to nothing. -/
theorem lstripL_append {a b : List Char} (h : lstripL a ≠ []) :
    lstripL (a ++ b) = lstripL a ++ b := by
  unfold lstripL at *
  rw [List.dropWhile_append, if_neg]
  simpa using h

/-- The appended `" LIMIT 100"` as characters. -/
theorem limit_data :
    (" LIMIT 100" : String).data = [' ', 'L', 'I', 'M', 'I', 'T', ' ', '1', '0', '0'] := rfl

/-- Its lower-cased form as characters. -/
theorem limit_low_data :
    (" limit 100" : String).data = [' ', 'l', 'i', 'm', 'i', 't', ' ', '1', '0', '0'] := rfl

/-- Stripping after appending `" LIMIT 100"`: only the left strip of the
original remains, the appended tail ends in `'0'` so nothing is stripped on
the right. -/
theorem stripL_append_limit {d : List Char} (h : lstripL d ≠ []) :
    stripL (d ++ (" LIMIT 100" : String).data) =
      lstripL d ++ (" LIMIT 100" : String).data := by
  unfold stripL
  rw [lstripL_append h, limit_data]
  have h2 : lstripL d ++ [' ', 'L', 'I', 'M', 'I', 'T', ' ', '1', '0', '0'] =
      (lstripL d ++ [' ', 'L', 'I', 'M', 'I', 'T', ' ', '1', '0']) ++ ['0'] := by
    simp
  rw [h2, rstripL_concat (by decide)]

/-- A nonempty all-letters word does not occur in a run of whitespace. -/
theorem no_word_in_spaces {fw wsp : List Char} (hne : fw ≠ [])
    (hfw : ∀ c ∈ fw, pyIsSpace c = false) (hw : ∀ c ∈ wsp, pyIsSpace c = true) :
    ¬ fw <:+: wsp := by
  intro h
  cases fw with
  | nil => exact hne rfl
  | cons c fw' =>
    have hc : c ∈ wsp := h.subset (List.mem_cons_self c fw')
    exact Bool.false_ne_true
      ((hfw c (List.mem_cons_self c fw')).symm.trans (hw c hc))

/-- A forbidden word absent from the stripped query does not appear after
appending trailing whitespace and `" limit 100"`: it cannot span either
boundary because it contains no whitespace and the appended text starts
with a space. -/
theorem no_forbidden_word_in_appended {fw A wsp : List Char}
    (hA : ¬ fw <:+: A) (hne : fw ≠ [])
    (hfw : ∀ c ∈ fw, pyIsSpace c = false)
    (hwsp : ∀ c ∈ wsp, pyIsSpace c = true)
    (hlit : ¬ fw <:+: (" limit 100" : String).data) :
    ¬ fw <:+: A ++ (wsp ++ (" limit 100" : String).data) := by
  have hhead_lit : ∀ c, ((" limit 100" : String).data).head? = some c → c ∉ fw := by
    intro c hc hmem
    rw [limit_low_data] at hc
    have hc' : c = ' ' := by simpa using hc.symm
    subst hc'
    exact Bool.false_ne_true ((hfw ' ' hmem).symm.trans (by decide))
  have hB : ¬ fw <:+: wsp ++ (" limit 100" : String).data :=
    not_infix_append (no_word_in_spaces hne hfw hwsp) hlit hhead_lit
  have hhead : ∀ c, (wsp ++ (" limit 100" : String).data).head? = some c → c ∉ fw := by
    intro c hc hmem
    have hspace : pyIsSpace c = true := by
      cases wsp with
      | nil =>
        rw [List.nil_append, limit_low_data] at hc
        have hc' : c = ' ' := by simpa using hc.symm
        subst hc'
        decide
      | cons c' w' =>
        have hc' : c' = c := by simpa using hc
        subst hc'
        exact hwsp c' (List.mem_cons_self c' w')
    exact Bool.false_ne_true ((hfw c hmem).symm.trans hspace)
  exact not_infix_append hA hB hhead

/-- Per-word facts about the five forbidden words: each is nonempty, has no
whitespace character, and does not occur in `" limit 100"`. -/
theorem forbidden_word_facts :
    ∀ w ∈ forbidden, w.data ≠ [] ∧ (∀ c ∈ w.data, pyIsSpace c = false) ∧
      ¬ (w.data <:+: (" limit 100" : String).data) := by decide

/-- Claim C7: `sanitize` is idempotent on every accepted input: if
`sanitizeSql x = ok y` then `sanitizeSql y = ok y` — in particular once the
output carries a `LIMIT` clause a second pass returns it unchanged. -/
theorem sanitize_idempotent (x y : String) (h : sanitizeSql x = Except.ok y) :
    sanitizeSql y = Except.ok y := by
  obtain ⟨h1, h2, hcase⟩ := sanitizeSql_ok_cases h
  rcases hcase with ⟨h3, rfl⟩ | ⟨h3, rfl⟩
  · rw [sanitizeSql_eq]
    simp [h1, h2, h3]
  · have hsel : ("select" : String).data <+: lowerL (stripL x.data) :=
      of_decide_eq_true h1
    have hforb : ∀ w ∈ forbidden, ¬ (w.data <:+: lowerL (stripL x.data)) := by
      intro w hw hinf
      exact (List.any_eq_false.mp h2 w hw) (decide_eq_true hinf)
    have hne : lstripL x.data ≠ [] := by
      intro h0
      have hs : stripL x.data = [] := by
        unfold stripL
        rw [h0]
        rfl
      rw [hs] at hsel
      exact absurd hsel (by decide)
    obtain ⟨wsp, hdecomp, hwsp⟩ := rstripL_decomp (lstripL x.data)
    have hdecomp' : lstripL x.data = stripL x.data ++ wsp := hdecomp
    have hq : lowerL (stripL ((x ++ " LIMIT 100").data)) =
        lowerL (stripL x.data) ++ (wsp ++ (" limit 100" : String).data) := by
      rw [String.data_append, stripL_append_limit hne, lowerL_append,
        show lowerL ((" LIMIT 100" : String).data) = (" limit 100" : String).data
          from by decide,
        hdecomp', lowerL_append, lowerL_spaces wsp hwsp, List.append_assoc]
    have hb1 : strStartsWith (pyLower (pyStrip (x ++ " LIMIT 100"))) "select" = true := by
      apply decide_eq_true
      show ("select" : String).data <+: lowerL (stripL ((x ++ " LIMIT 100").data))
      rw [hq]
      exact hsel.trans (List.prefix_append _ _)
    have hb2 : forbidden.any
        (fun word => strContains (pyLower (pyStrip (x ++ " LIMIT 100"))) word) = false := by
      apply List.any_eq_false.mpr
      intro w hw hcon
      have hinf : w.data <:+: lowerL (stripL ((x ++ " LIMIT 100").data)) :=
        of_decide_eq_true hcon
      rw [hq] at hinf
      obtain ⟨hne_w, hnosp, hlit⟩ := forbidden_word_facts w hw
      exact no_forbidden_word_in_appended (hforb w hw) hne_w hnosp hwsp hlit hinf
    have hb3 : strContains (pyLower (pyStrip (x ++ " LIMIT 100"))) "limit" = true := by
      apply decide_eq_true
      show ("limit" : String).data <:+: lowerL (stripL ((x ++ " LIMIT 100").data))
      rw [hq]
      exact infix_append_of_right _ (infix_append_of_right _ (by decide))
    rw [sanitizeSql_eq]
    simp [hb1, hb2, hb3]

/-- Claim C7 witness: a second pass fixes the output of a first pass. -/
theorem sanitize_idempotent_witness :
    sanitizeSql "select * from ventas LIMIT 100" =
      Except.ok "select * from ventas LIMIT 100" :=
  sanitize_idempotent "select * from ventas" "select * from ventas LIMIT 100"
    (by decide)

/-- Claim C1, counterexample to the claim as stated: `"DROP TABLE ventas"`
contains the forbidden word `DROP`, yet `_sanitize_sql` does not fail with
`ForbiddenKeyword` — the leading-`SELECT` test runs first and raises
`NotASelect`. -/
theorem sanitize_forbidden_cex :
    forbidden.any
        (fun word => strContains (pyLower (pyStrip "DROP TABLE ventas")) word) = true ∧
    sanitizeSql "DROP TABLE ventas" ≠ Except.error SanitizeError.forbiddenKeyword := by
  decide

/-- Claim C1 (amended): a candidate containing any forbidden word
(`DROP`/`DELETE`/`UPDATE`/`INSERT`/`ALTER`, case-insensitively, anywhere)
is never returned as a `SafeQuery`; when it also begins with `SELECT`
(after trimming, case-insensitively) the failure is `ForbiddenKeyword`. -/
theorem sanitize_forbidden_never_safe (s : String)
    (hf : forbidden.any (fun word => strContains (pyLower (pyStrip s)) word) = true) :
    (∀ r, sanitizeSql s ≠ Except.ok r) ∧
    (strStartsWith (pyLower (pyStrip s)) "select" = true →
      sanitizeSql s = Except.error SanitizeError.forbiddenKeyword) := by
  constructor
  · intro r
    rw [sanitizeSql_eq]
    cases h1 : strStartsWith (pyLower (pyStrip s)) "select" <;> simp [h1, hf]
  · intro h1
    rw [sanitizeSql_eq]
    simp [h1, hf]

/-- Claim C1 witness: a statement that starts with `SELECT` and contains
`DROP` fails with `ForbiddenKeyword`. -/
theorem sanitize_forbidden_never_safe_witness :
    sanitizeSql "SELECT 1; DROP TABLE ventas" =
      Except.error SanitizeError.forbiddenKeyword :=
  (sanitize_forbidden_never_safe "SELECT 1; DROP TABLE ventas" (by decide)).2
    (by decide)

/-- Claim C2: a candidate whose trimmed, lower-cased text does not begin
with `select` fails with `NotASelect`; and on any accepted input the
original text (casing included) is a prefix of the output. -/
theorem sanitize_not_select (s : String) :
    (strStartsWith (pyLower (pyStrip s)) "select" = false →
      sanitizeSql s = Except.error SanitizeError.notASelect) ∧
    (∀ r, sanitizeSql s = Except.ok r → s.data <+: r.data) := by
  constructor
  · intro h1
    rw [sanitizeSql_eq]
    simp [h1]
  · intro r hr
    rcases (sanitizeSql_ok_cases hr).2.2 with ⟨_, rfl⟩ | ⟨_, rfl⟩
    · exact List.prefix_rfl
    · simp

/-- Claim C2 witness: the empty string fails with `NotASelect`. -/
theorem sanitize_not_select_witness :
    sanitizeSql "" = Except.error SanitizeError.notASelect :=
  (sanitize_not_select "").1 (by decide)

/-- Claim C3: a safe `SELECT` without the token `limit` (case-insensitive)
gets exactly `" LIMIT 100"` appended; a safe statement already containing
`limit` in any case is returned unchanged. -/
theorem sanitize_limit_cap (s : String)
    (hsel : strStartsWith (pyLower (pyStrip s)) "select" = true)
    (hforb : forbidden.any (fun word => strContains (pyLower (pyStrip s)) word) = false) :
    (strContains (pyLower (pyStrip s)) "limit" = false →
      sanitizeSql s = Except.ok (s ++ " LIMIT 100")) ∧
    (strContains (pyLower (pyStrip s)) "limit" = true →
      sanitizeSql s = Except.ok s) := by
  constructor <;> intro h3 <;> rw [sanitizeSql_eq] <;> simp [hsel, hforb, h3]

/-- Claim C3 witness: `" LIMIT 100"` is appended to a plain `SELECT`. -/
theorem sanitize_limit_cap_witness :
    sanitizeSql "select * from ventas" = Except.ok "select * from ventas LIMIT 100" :=
  (sanitize_limit_cap "select * from ventas" (by decide) (by decide)).1 (by decide)

/-- Claim C4: the routing is total and checks the lower-cased question
against the chart keywords first, then the file keywords, else `Table`;
a chart keyword wins whatever the file keywords say. -/
theorem route_priority (q : String) :
    (chartKeywords.any (fun k => strContains (pyLower q) k) = true →
      route q = RouteDecision.chart) ∧
    (chartKeywords.any (fun k => strContains (pyLower q) k) = false →
      fileKeywords.any (fun k => strContains (pyLower q) k) = true →
        route q = RouteDecision.file) ∧
    (chartKeywords.any (fun k => strContains (pyLower q) k) = false →
      fileKeywords.any (fun k => strContains (pyLower q) k) = false →
        route q = RouteDecision.table) := by
  refine ⟨fun h1 => ?_, fun h1 h2 => ?_, fun h1 h2 => ?_⟩
  · simp [route, h1]
  · simp [route, h1, h2]
  · simp [route, h1, h2]

/-- Claim C4 witness, the spec's tie-break example: the question names both
a chart keyword and a file keyword and routes to `Chart`. -/
theorem route_priority_witness :
    fileKeywords.any
        (fun k => strContains (pyLower "Muestra el gráfico y guárdalo en excel") k) = true ∧
    route "Muestra el gráfico y guárdalo en excel" = RouteDecision.chart :=
  ⟨by decide, (route_priority "Muestra el gráfico y guárdalo en excel").1 (by decide)⟩

/-- Claim C5: when the translated candidate is rejected by the sanitizer,
`handle_question` returns the classified error string and the store is
never invoked (no executed query, no written file). -/
theorem unsafe_query_never_executed
    (translate : String → Except String String)
    (executeQuery : String → Except String DataFrame)
    (hashFn : String → Int) (toStr : DataFrame → String)
    (question candidate : String) (err : SanitizeError)
    (htr : translate question = Except.ok candidate)
    (hsan : sanitizeSql candidate = Except.error err) :
    handleQuestion translate executeQuery hashFn toStr question =
      ("Error: " ++ sanitizeMsg err, ⟨[], []⟩) := by
  simp [handleQuestion, handleBody, htr, hsan]

/-- Claim C5 witness: a translation stub returning `"DROP TABLE ventas"`
yields the classified error and an empty trace. -/
theorem unsafe_query_never_executed_witness :
    handleQuestion stubTranslateDrop stubStore stubHash stubToStr
      "Elimina la tabla de ventas" =
      ("Error: " ++ sanitizeMsg SanitizeError.notASelect, ⟨[], []⟩) :=
  unsafe_query_never_executed stubTranslateDrop stubStore stubHash stubToStr
    "Elimina la tabla de ventas" "DROP TABLE ventas" SanitizeError.notASelect
    (by decide) (by decide)

/-- Claim C6: `handle_question` always returns a value, for every behavior
of its collaborators; when the body raises (an `Except.error` of
`handleBody`) the exception is converted to the `"Error: ..."` result
rather than escaping, and when the body returns normally its result is
passed through. -/
theorem handle_question_total
    (translate : String → Except String String)
    (executeQuery : String → Except String DataFrame)
    (hashFn : String → Int) (toStr : DataFrame → String) (question : String) :
    ∃ res tr, handleQuestion translate executeQuery hashFn toStr question = (res, tr) ∧
      (∀ r, handleBody translate executeQuery hashFn toStr question = Except.ok r →
        (res, tr) = r) ∧
      (∀ m tr',
        handleBody translate executeQuery hashFn toStr question = Except.error (m, tr') →
          res = "Error: " ++ m ∧ tr = tr') := by
  cases hb : handleBody translate executeQuery hashFn toStr question with
  | ok r =>
    refine ⟨r.1, r.2, by simp [handleQuestion, hb], fun r' hr' => ?_, fun m tr' hm => ?_⟩
    · rw [Except.ok.inj hr']
    · exact absurd hm (by simp)
  | error e =>
    refine ⟨"Error: " ++ e.1, e.2, by simp [handleQuestion, hb], fun r' hr' => ?_,
      fun m tr' hm => ?_⟩
    · exact absurd hr' (by simp)
    · have he : e = (m, tr') := Except.error.inj hm
      rw [he]
      exact ⟨rfl, rfl⟩

/-- Claim C6 witness: a raising translation stub still yields a value. -/
theorem handle_question_total_witness :
    ∃ res tr,
      handleQuestion stubTranslateFail stubStore stubHash stubToStr
        "¿Cuántos productos se vendieron?" = (res, tr) ∧
      (∀ r, handleBody stubTranslateFail stubStore stubHash stubToStr
        "¿Cuántos productos se vendieron?" = Except.ok r → (res, tr) = r) ∧
      (∀ m tr', handleBody stubTranslateFail stubStore stubHash stubToStr
        "¿Cuántos productos se vendieron?" = Except.error (m, tr') →
          res = "Error: " ++ m ∧ tr = tr') :=
  handle_question_total stubTranslateFail stubStore stubHash stubToStr
    "¿Cuántos productos se vendieron?"

/-- Claim C8: on an empty result set, or one with no numeric-typed column,
`generate_plot` returns one of its two informational messages and writes
no file at all. -/
theorem chart_not_plottable (hashFn : String → Int) (df : DataFrame) (question : String)
    (h : df.empty = true ∨ df.numericColumns = []) :
    ((generatePlot hashFn df question).1 = "No hay datos para graficar." ∨
      (generatePlot hashFn df question).1 = "No hay columnas numéricas para graficar.") ∧
    (generatePlot hashFn df question).2 = [] := by
  rcases h with h | h
  · simp [generatePlot, h]
  · cases he : df.empty <;> simp [generatePlot, he, h]

/-- Claim C8 witness: the empty frame is reported as not plottable and no
file is written. -/
theorem chart_not_plottable_witness :
    ((generatePlot stubHash ⟨[], 0⟩ "Genera un gráfico").1 = "No hay datos para graficar." ∨
      (generatePlot stubHash ⟨[], 0⟩ "Genera un gráfico").1 =
        "No hay columnas numéricas para graficar.") ∧
    (generatePlot stubHash ⟨[], 0⟩ "Genera un gráfico").2 = [] :=
  chart_not_plottable stubHash ⟨[], 0⟩ "Genera un gráfico" (Or.inl (by decide))

/-- Claim C9: the chart file path depends only on the question text and the
process's hash seed, not on the request: any chart-producing invocation
with the same question in the same process writes the same single path
`output/graph_{abs(hash(question))}.html` — contradicting uniqueness per
request (and the source's own comment `Nombre único para evitar
sobrescribir`). -/
theorem graph_path_depends_only_on_question
    (hashFn : String → Int) (df₁ df₂ : DataFrame) (question : String)
    (h₁e : df₁.empty = false) (h₁n : df₁.numericColumns.isEmpty = false)
    (h₂e : df₂.empty = false) (h₂n : df₂.numericColumns.isEmpty = false) :
    (generatePlot hashFn df₁ question).2 = [graphPath hashFn question] ∧
    (generatePlot hashFn df₂ question).2 = (generatePlot hashFn df₁ question).2 := by
  simp [generatePlot, h₁e, h₁n, h₂e, h₂n]

/-- Claim C9 witness: two chart-producing requests with the question
`"Genera un gráfico de ventas"` (over different data) write the identical
path. -/
theorem graph_path_depends_only_on_question_witness :
    (generatePlot stubHash ⟨[⟨"mes", false⟩, ⟨"total", true⟩], 3⟩
        "Genera un gráfico de ventas").2 =
      [graphPath stubHash "Genera un gráfico de ventas"] ∧
    (generatePlot stubHash ⟨[⟨"producto", false⟩, ⟨"cantidad", true⟩], 5⟩
        "Genera un gráfico de ventas").2 =
      (generatePlot stubHash ⟨[⟨"mes", false⟩, ⟨"total", true⟩], 3⟩
        "Genera un gráfico de ventas").2 :=
  graph_path_depends_only_on_question stubHash
    ⟨[⟨"mes", false⟩, ⟨"total", true⟩], 3⟩
    ⟨[⟨"producto", false⟩, ⟨"cantidad", true⟩], 5⟩
    "Genera un gráfico de ventas" (by decide) (by decide) (by decide) (by decide)

/-- Claim C10: an accepted input is returned either verbatim or with the
single suffix `" LIMIT 100"`; in both cases the input text, casing and
whitespace included, is an unmodified prefix of the output. -/
theorem sanitize_output_frame (s r : String) (h : sanitizeSql s = Except.ok r) :
    (r = s ∨ r = s ++ " LIMIT 100") ∧ s.data <+: r.data := by
  rcases (sanitizeSql_ok_cases h).2.2 with ⟨_, rfl⟩ | ⟨_, rfl⟩
  · exact ⟨Or.inl rfl, List.prefix_rfl⟩
  · exact ⟨Or.inr rfl, by simp⟩

/-- Claim C10 witness: a query with a `limit` comes back verbatim, so the
prefix property holds at a concrete input. -/
theorem sanitize_output_frame_witness :
    ("SeLeCt x  FROM t LIMIT 5" = "SeLeCt x  FROM t LIMIT 5" ∨
      "SeLeCt x  FROM t LIMIT 5" = "SeLeCt x  FROM t LIMIT 5" ++ " LIMIT 100") ∧
    ("SeLeCt x  FROM t LIMIT 5" : String).data <+:
      ("SeLeCt x  FROM t LIMIT 5" : String).data :=
  sanitize_output_frame "SeLeCt x  FROM t LIMIT 5" "SeLeCt x  FROM t LIMIT 5" (by decide)
